import Mathlib

/-!
Verification development for the Innovation Engine assistant session engine
(Go package `assistant`: `AssistantModel`, `Update`, `handleQuery`,
`generateResponse`).  The Go code is shallowly embedded: the model record,
the event dispatch of `Update`, the transcript manipulation of
`handleQuery` and the rule-based `generateResponse` are translated into
executable Lean definitions, and the stated properties of the session
engine are proved about them.

The terminal widgets (`textarea`, `viewport` from charmbracelet/bubbles)
are external library components; they are modelled by the fields and
operations the assistant code uses (value, character limit, width/height,
content).  None of the dispatched action keys (ctrl+s, ctrl+l, ctrl+c,
esc, f1..f3) is bound inside those widgets, so their `Update` leaves the
modelled fields unchanged; a printable key inserts a character into the
textarea subject to its character limit (the soft cap).  Scroll offset is
not part of the modelled viewport state.
-/

set_option maxRecDepth 100000

namespace InnovationEngine

/-- Prefix test: `leadMatch pat s` is true iff the character list `pat` occurs at the
head of `s`; the prefix test underlying Go `strings.Contains`. -/
def leadMatch : List Char → List Char → Bool
  | [], _ => true
  | _ :: _, [] => false
  | p :: ps, c :: cs => p == c && leadMatch ps cs

/-- Containment test: `containsSeq s pat` is true iff `pat` occurs contiguously inside `s`;
list-level model of Go `strings.Contains`. -/
def containsSeq : List Char → List Char → Bool
  | [], pat => leadMatch pat []
  | s@(_ :: rest), pat => leadMatch pat s || containsSeq rest pat

/-- Go `strings.Contains` on strings. -/
def strIncludes (s pat : String) : Bool :=
  containsSeq s.data pat.data

/-- Go `strings.ToLower`; the queries and keywords here are ASCII, where
`Char.toLower` agrees with the Unicode lowercasing done by Go. -/
def toLowerStr (s : String) : String :=
  ⟨s.data.map Char.toLower⟩

/-- The deployment topic template returned by `generateResponse`. -/
def deploymentResponse : String :=
  "I\x27ll help you create a deployment. Here\x27s an executable document:\n\n# Deploy Application to Kubernetes\n\n## Prerequisites\n\nMake sure you have a running Kubernetes cluster:\n\n```bash\nkubectl cluster-info\n```\n\n## Step 1: Create Deployment\n\n```bash\nkubectl create deployment my-app --image=nginx:latest --replicas=3\n```\n\n## Step 2: Expose the Deployment\n\n```bash\nkubectl expose deployment my-app --port=80 --target-port=80 --type=ClusterIP\n```\n\n## Step 3: Verify Deployment\n\n```bash\nkubectl get deployments\nkubectl get pods -l app=my-app\nkubectl describe deployment my-app\n```\n\n## Optional: Scale the Deployment\n\n```bash\nkubectl scale deployment my-app --replicas=5\n```\n\nSave this as \x27deployment.md\x27 and run: \n- ie execute deployment.md (to run automatically)\n- ie interactive deployment.md (to run step by step)"

/-- The service topic template returned by `generateResponse`. -/
def serviceResponse : String :=
  "Here\x27s how to create a Kubernetes service:\n\n# Create Kubernetes Service\n\n## Step 1: Create Service YAML\n\n```bash\ncat <<EOF > service.yaml\napiVersion: v1\nkind: Service\nmetadata:\n  name: my-service\n  labels:\n    app: my-app\nspec:\n  selector:\n    app: my-app\n  ports:\n    - protocol: TCP\n      port: 80\n      targetPort: 8080\n  type: ClusterIP\nEOF\n```\n\n## Step 2: Apply Service\n\n```bash\nkubectl apply -f service.yaml\n```\n\n## Step 3: Verify Service\n\n```bash\nkubectl get services\nkubectl describe service my-service\n```\n\n## Step 4: Test Service Connectivity\n\n```bash\nkubectl run test-pod --image=busybox --rm -it --restart=Never -- /bin/sh -c \"wget -qO- http://my-service\"\n```\n\nSave this as \x27service.md\x27 and run: ie execute service.md"

/-- The ingress topic template returned by `generateResponse`. -/
def ingressResponse : String :=
  "I\x27ll guide you through setting up an ingress controller:\n\n# Setup Ingress Controller\n\n## Step 1: Install NGINX Ingress Controller\n\n```bash\nkubectl apply -f https://raw.githubusercontent.com/kubernetes/ingress-nginx/controller-v1.8.1/deploy/static/provider/cloud/deploy.yaml\n```\n\n## Step 2: Wait for Controller to be Ready\n\n```bash\nkubectl wait --namespace ingress-nginx \\\n  --for=condition=ready pod \\\n  --selector=app.kubernetes.io/component=controller \\\n  --timeout=90s\n```\n\n## Step 3: Create Ingress Resource\n\n```bash\ncat <<EOF > ingress.yaml\napiVersion: networking.k8s.io/v1\nkind: Ingress\nmetadata:\n  name: my-ingress\n  annotations:\n    nginx.ingress.kubernetes.io/rewrite-target: /\nspec:\n  rules:\n  - host: my-app.local\n    http:\n      paths:\n      - path: /\n        pathType: Prefix\n        backend:\n          service:\n            name: my-service\n            port:\n              number: 80\nEOF\n```\n\n## Step 4: Apply Ingress\n\n```bash\nkubectl apply -f ingress.yaml\n```\n\n## Step 5: Verify Ingress\n\n```bash\nkubectl get ingress\nkubectl describe ingress my-ingress\n```\n\nSave this as \x27ingress.md\x27 and run: ie execute ingress.md"

/-- The pod topic template returned by `generateResponse`. -/
def podResponse : String :=
  "Here\x27s how to work with pods:\n\n# Working with Kubernetes Pods\n\n## Step 1: Create a Simple Pod\n\n```bash\ncat <<EOF > pod.yaml\napiVersion: v1\nkind: Pod\nmetadata:\n  name: my-pod\n  labels:\n    app: my-app\nspec:\n  containers:\n  - name: nginx\n    image: nginx:latest\n    ports:\n    - containerPort: 80\nEOF\n```\n\n## Step 2: Apply Pod Configuration\n\n```bash\nkubectl apply -f pod.yaml\n```\n\n## Step 3: Monitor Pod Status\n\n```bash\nkubectl get pods\nkubectl describe pod my-pod\n```\n\n## Step 4: View Pod Logs\n\n```bash\nkubectl logs my-pod\n```\n\n## Step 5: Execute Commands in Pod\n\n```bash\nkubectl exec -it my-pod -- /bin/bash\n```\n\nSave this as \x27pod.md\x27 and run: ie interactive pod.md"

/-- The storage topic template returned by `generateResponse`. -/
def storageResponse : String :=
  "Here\x27s how to set up persistent storage:\n\n# Kubernetes Storage and Volumes\n\n## Step 1: Create a PersistentVolume\n\n```bash\ncat <<EOF > pv.yaml\napiVersion: v1\nkind: PersistentVolume\nmetadata:\n  name: my-pv\nspec:\n  capacity:\n    storage: 1Gi\n  accessModes:\n    - ReadWriteOnce\n  hostPath:\n    path: /tmp/data\nEOF\n```\n\n## Step 2: Create a PersistentVolumeClaim\n\n```bash\ncat <<EOF > pvc.yaml\napiVersion: v1\nkind: PersistentVolumeClaim\nmetadata:\n  name: my-pvc\nspec:\n  accessModes:\n    - ReadWriteOnce\n  resources:\n    requests:\n      storage: 1Gi\nEOF\n```\n\n## Step 3: Apply Storage Resources\n\n```bash\nkubectl apply -f pv.yaml\nkubectl apply -f pvc.yaml\n```\n\n## Step 4: Verify Storage\n\n```bash\nkubectl get pv\nkubectl get pvc\n```\n\nSave this as \x27storage.md\x27 and run: ie execute storage.md"

/-- The fixed fallback document returned when no topic rule matches. -/
def defaultResponse : String :=
  "I can help you with Kubernetes tasks! Here are some things I can assist with:\n\n**Deployments & Services:**\n- Creating and managing deployments\n- Setting up services and load balancers\n- Scaling applications\n\n**Networking:**\n- Configuring ingress controllers\n- Setting up service mesh\n- Network policies\n\n**Storage:**\n- Persistent volumes and claims\n- Storage classes\n- StatefulSets\n\n**Pods & Workloads:**\n- Pod management and troubleshooting\n- Jobs and CronJobs\n- DaemonSets\n\n**Common Commands:**\nTry asking questions like:\n- \"How do I create a deployment?\"\n- \"Help me set up a service\"\n- \"I need to configure ingress\"\n- \"How do I create persistent storage?\"\n- \"Show me how to work with pods\"\n\n**Quick Start Options:**\n- F1: Deploy an application\n- F2: Create a service  \n- F3: Set up ingress controller\n\nAll responses are executable documents that you can save as .md files and run with Innovation Engine:\n- \x27ie execute filename.md\x27 (runs automatically)\n- \x27ie interactive filename.md\x27 (step-by-step)\n- \x27ie test filename.md\x27 (validates commands)\n\nWhat would you like to learn about?"

/-- Translation of `generateResponse` from `assistant.go`: lowercase the query, test
substring containment against the topic rules in source order, return the
first matching fixed template, else the fallback document. -/
def generateResponse (query : String) : String :=
  let queryLower := toLowerStr query
  if strIncludes queryLower "deployment" || strIncludes queryLower "deploy" then
    deploymentResponse
  else if strIncludes queryLower "service" then
    serviceResponse
  else if strIncludes queryLower "ingress" then
    ingressResponse
  else if strIncludes queryLower "pod" then
    podResponse
  else if strIncludes queryLower "storage" || strIncludes queryLower "volume" ||
      strIncludes queryLower "pv" then
    storageResponse
  else
    defaultResponse

/-- The modelled fields of the `textarea.Model` widget used by the
assistant: current value, character limit (soft cap) and wrap width. -/
structure Textarea where
  value : String
  charLimit : Nat
  width : Int
deriving DecidableEq

/-- The modelled fields of the `viewport.Model` widget used by the
assistant: dimensions and the flattened content string.  Scroll offset is
not modelled. -/
structure Viewport where
  width : Int
  height : Int
  content : String
deriving DecidableEq

/-- Translation of `AssistantModel` from `assistant.go` (the static keymap and help
widgets carry no session state and are omitted). -/
structure AssistantModel where
  textarea : Textarea
  viewport : Viewport
  width : Int
  height : Int
  responses : List String
  environment : String
  ready : Bool
deriving DecidableEq

/-- The terminal events the assistant dispatches on: window resize, the
bound action keys, any other (printable) key, and the blink tick. -/
inductive Msg where
  | windowSize (width height : Int)
  | keyQuit
  | keyClear
  | keySend
  | keyExample1
  | keyExample2
  | keyExample3
  | keyChar (c : Char)
  | tick
deriving DecidableEq

/-- The commands `Update` can return to the bubbletea runtime: `tea.Quit`,
`nil`, or `tea.Batch tiCmd vpCmd`. -/
inductive Cmd where
  | none
  | quit
  | batch
deriving DecidableEq

/-- Model of `textarea.Model.Update`: none of the dispatched action keys is bound
in the widget; a printable key inserts a character while the value is
below the character limit, and is silently dropped at the limit. -/
def Textarea.update (ta : Textarea) (msg : Msg) : Textarea :=
  match msg with
  | Msg.keyChar c =>
      if ta.value.length < ta.charLimit then
        { ta with value := ta.value.push c }
      else ta
  | _ => ta

/-- Model of `textarea.Model.SetWidth`. -/
def Textarea.setWidth (ta : Textarea) (w : Int) : Textarea :=
  { ta with width := w }

/-- Model of `textarea.Model.SetValue`. -/
def Textarea.setValue (ta : Textarea) (v : String) : Textarea :=
  { ta with value := v }

/-- Model of `viewport.Model.Update`: key events only move the scroll offset, which
is outside the modelled state, so the modelled fields are unchanged. -/
def Viewport.update (vp : Viewport) (_ : Msg) : Viewport :=
  vp

/-- Model of `viewport.Model.SetContent`. -/
def Viewport.setContent (vp : Viewport) (s : String) : Viewport :=
  { vp with content := s }

/-- Model of `viewport.Model.GotoBottom`: moves the scroll offset only, which is
outside the modelled state. -/
def Viewport.gotoBottom (vp : Viewport) : Viewport :=
  vp

/-- The initial welcome message placed in the viewport and as the first
transcript entry by `NewAssistantModel`. -/
def welcomeMessage : String :=
  "Welcome to the Innovation Engine Assistant!\n\nI can help you create executable documents for Kubernetes tasks. Here\x27s how it works:\n\n🚀 GETTING STARTED:\n• Type your question in the text box below\n• Press Ctrl+S to send your query\n• I\x27ll generate an executable document you can save and run\n\n⚡ QUICK START OPTIONS:\n• F1: Deploy an application to Kubernetes\n• F2: Create a Kubernetes service  \n• F3: Set up an ingress controller\n\n📝 EXAMPLE QUERIES:\n• \"How do I create a deployment?\"\n• \"Help me set up persistent storage\"\n• \"I need to configure a load balancer\"\n• \"Show me how to scale an application\"\n\n💡 TIP: All responses are executable documents you can save as .md files and run with:\n   ie execute filename.md (automatic execution)\n   ie interactive filename.md (step-by-step guide)\n\nReady to get started? Ask me anything about Kubernetes!"

/-- The single reset turn installed by the clear action. -/
def clearedMessage : String :=
  "Chat cleared. How can I help you?"

/-- Translation of `NewAssistantModel`: fresh textarea with a 500-character limit, an
80x20 viewport holding the welcome message, a one-element transcript, and
`ready = false` until the first resize event. -/
def NewAssistantModel (environment : String) : AssistantModel :=
  { textarea := { value := "", charLimit := 500, width := 0 }
    viewport := { width := 80, height := 20, content := welcomeMessage }
    width := 0
    height := 0
    responses := [welcomeMessage]
    environment := environment
    ready := false }

/-- Translation of `AssistantModel.handleQuery`: append the user turn `"You: " ++ query`,
generate and append the assistant turn, re-join the transcript into the
viewport, scroll to bottom, and clear the textarea. -/
def AssistantModel.handleQuery (m : AssistantModel) (query : String) : AssistantModel :=
  let responses := m.responses ++ ["You: " ++ query]
  let response := generateResponse query
  let responses := responses ++ ["Assistant: " ++ response]
  { m with
    responses := responses
    viewport := Viewport.gotoBottom
      (Viewport.setContent m.viewport (String.intercalate "\n\n" responses))
    textarea := Textarea.setValue m.textarea "" }

/-- Translation of `AssistantModel.Update`: first both widgets process the event, then
the assistant dispatches on it.  The first resize sizes the widgets and
sets `ready`; later resizes only record the dimensions.  Quit returns
`tea.Quit`; clear resets the transcript to the single reset turn; send
fires only on a non-empty textarea; the example keys behave like send
with a fixed query; everything else falls through to the widgets. -/
def AssistantModel.Update (m : AssistantModel) (msg : Msg) : AssistantModel × Cmd :=
  let m := { m with
    textarea := Textarea.update m.textarea msg
    viewport := Viewport.update m.viewport msg }
  match msg with
  | Msg.windowSize w h =>
      let m := { m with width := w, height := h }
      if !m.ready then
        ({ m with
            viewport := { m.viewport with width := w - 4, height := h - 10 }
            textarea := Textarea.setWidth m.textarea (w - 4)
            ready := true }, Cmd.batch)
      else
        (m, Cmd.batch)
  | Msg.keyQuit => (m, Cmd.quit)
  | Msg.keyClear =>
      let responses := [clearedMessage]
      ({ m with
          responses := responses
          viewport := Viewport.setContent m.viewport (String.intercalate "\n\n" responses) },
       Cmd.none)
  | Msg.keySend =>
      if m.textarea.value ≠ "" then
        (m.handleQuery m.textarea.value, Cmd.none)
      else
        (m, Cmd.batch)
  | Msg.keyExample1 => (m.handleQuery "Create a deployment for my application", Cmd.none)
  | Msg.keyExample2 => (m.handleQuery "Create a Kubernetes service", Cmd.none)
  | Msg.keyExample3 => (m.handleQuery "Set up ingress controller", Cmd.none)
  | _ => (m, Cmd.batch)

/-- Run the event loop over a list of events, keeping the model component
of each step (command handling in the loop is external to the model). -/
def run (m : AssistantModel) (msgs : List Msg) : AssistantModel :=
  msgs.foldl (fun m msg => (m.Update msg).1) m

/-- The ordered topic rules of the response generator, as the spec
describes them: keyword set paired with the template it selects. -/
def topicRules : List (List String × String) :=
  [(["deployment", "deploy"], deploymentResponse),
   (["service"], serviceResponse),
   (["ingress"], ingressResponse),
   (["pod"], podResponse),
   (["storage", "volume", "pv"], storageResponse)]

/-- All topic keywords of the response generator, in source order. -/
def topicKeywords : List String :=
  ["deployment", "deploy", "service", "ingress", "pod", "storage", "volume", "pv"]

/-- Modelled from the spec: the spec-side description of the response
matching done by the generator — lowercase the query, scan the rule list,
and return the template of the first rule one of whose keywords is
contained in the query (`none` when no rule matches). -/
def specFirstMatch (query : String) : Option String :=
  let ql := toLowerStr query
  (topicRules.find? (fun r => r.1.any (fun kw => strIncludes ql kw))).map Prod.snd

/-- A concrete session that has seen its first resize (so it is ready)
and has the single character `h` typed into the input buffer. -/
def readyModelH : AssistantModel :=
  run (NewAssistantModel "local") [Msg.windowSize 80 24, Msg.keyChar 'h']

/-- A concrete session that has seen its first resize at 80x24. -/
def readyModel80 : AssistantModel :=
  run (NewAssistantModel "local") [Msg.windowSize 80 24]

/-- A concrete ready session whose input buffer holds `hi`. -/
def readyModelHi : AssistantModel :=
  { NewAssistantModel "local" with
    textarea := Textarea.setValue (NewAssistantModel "local").textarea "hi" }

theorem leadMatch_append (p q s : List Char) :
    leadMatch (p ++ q) s = true → leadMatch p s = true := by
  induction p generalizing s with
  | nil => intro _; rfl
  | cons a as ih =>
      intro h
      cases s with
      | nil => simp [leadMatch] at h
      | cons c cs =>
          simp only [List.cons_append, leadMatch, Bool.and_eq_true] at h ⊢
          exact ⟨h.1, ih cs h.2⟩

theorem containsSeq_append (s p q : List Char) :
    containsSeq s (p ++ q) = true → containsSeq s p = true := by
  induction s with
  | nil =>
      intro h
      simp only [containsSeq] at h ⊢
      cases p with
      | nil => rfl
      | cons a as => cases q <;> simp [leadMatch] at h
  | cons c cs ih =>
      intro h
      simp only [containsSeq, Bool.or_eq_true] at h ⊢
      rcases h with h | h
      · exact Or.inl (leadMatch_append p q _ h)
      · exact Or.inr (ih h)

theorem strIncludes_deployment_deploy (s : String) :
    strIncludes s "deployment" = true → strIncludes s "deploy" = true := by
  intro h
  have hdat : ("deployment" : String).data = ("deploy" : String).data ++ ("ment" : String).data := by
    decide
  unfold strIncludes at h ⊢
  rw [hdat] at h
  exact containsSeq_append s.data _ _ h

theorem handleQuery_responses (m : AssistantModel) (q : String) :
    (m.handleQuery q).responses =
      m.responses ++ ["You: " ++ q, "Assistant: " ++ generateResponse q] := by
  simp [AssistantModel.handleQuery]

theorem update_responses_ge (m : AssistantModel) (msg : Msg)
    (h : 1 ≤ m.responses.length) : 1 ≤ ((m.Update msg).1).responses.length := by
  cases msg <;>
    simp only [AssistantModel.Update, Textarea.update, Viewport.update,
      AssistantModel.handleQuery, Textarea.setWidth, Textarea.setValue,
      Viewport.setContent, Viewport.gotoBottom] <;>
    (try split) <;>
    simp_all [List.length_append]

theorem run_responses_ge (msgs : List Msg) :
    ∀ m : AssistantModel, 1 ≤ m.responses.length → 1 ≤ (run m msgs).responses.length := by
  induction msgs with
  | nil => intro m h; simpa [run] using h
  | cons msg rest ih =>
      intro m h
      simpa [run] using ih ((m.Update msg).1) (update_responses_ge m msg h)

/-- One send action performed on a session whose input buffer has been
set to `q` (the user has entered `q` since the previous action). -/
def sendStep (m : AssistantModel) (q : String) : AssistantModel :=
  (AssistantModel.Update { m with textarea := Textarea.setValue m.textarea q } Msg.keySend).1

theorem sendStep_responses (m : AssistantModel) (q : String) (h : q ≠ "") :
    (sendStep m q).responses =
      m.responses ++ ["You: " ++ q, "Assistant: " ++ generateResponse q] := by
  simp [sendStep, AssistantModel.Update, Textarea.update, Viewport.update,
    Textarea.setValue, h, AssistantModel.handleQuery]

theorem sends_fold (qs : List String) :
    ∀ m : AssistantModel, (∀ q ∈ qs, q ≠ "") →
      (qs.foldl sendStep m).responses.length = m.responses.length + 2 * qs.length := by
  induction qs with
  | nil => intro m _; simp
  | cons q rest ih =>
      intro m h
      have hq : q ≠ "" := h q (List.mem_cons_self q rest)
      have hrest : ∀ x ∈ rest, x ≠ "" := fun x hx => h x (List.mem_cons_of_mem q hx)
      calc ((q :: rest).foldl sendStep m).responses.length
          = (rest.foldl sendStep (sendStep m q)).responses.length := by simp [List.foldl]
        _ = (sendStep m q).responses.length + 2 * rest.length := ih (sendStep m q) hrest
        _ = m.responses.length + 2 * (q :: rest).length := by
            simp [sendStep_responses m q hq, List.length_append]
            omega

/-- C1 (counterexample): in a ready session whose input buffer holds `h`,
triggering QuickAction 1 does not leave the buffer untouched — it is
cleared, so its contents differ from the value before the action. -/
theorem quickaction_untouched_buffer_cex :
    readyModelH.ready = true ∧ readyModelH.textarea.value = "h" ∧
      ((readyModelH.Update Msg.keyExample1).1).textarea.value ≠ "h" := by
  refine ⟨rfl, rfl, ?_⟩
  have hv : ((readyModelH.Update Msg.keyExample1).1).textarea.value = "" := rfl
  rw [hv]
  decide

/-- C1 (amended): in every ready session, each QuickAction appends exactly
one user turn carrying its bound example query and one assistant turn
generated from it, and clears the input buffer (so the buffer equals its
prior contents only when it was already empty). -/
theorem quickaction_appends_pair_and_clears_input (m : AssistantModel)
    (hr : m.ready = true) :
    (((m.Update Msg.keyExample1).1).responses =
        m.responses ++ ["You: Create a deployment for my application",
          "Assistant: " ++ generateResponse "Create a deployment for my application"] ∧
      ((m.Update Msg.keyExample1).1).textarea.value = "") ∧
    (((m.Update Msg.keyExample2).1).responses =
        m.responses ++ ["You: Create a Kubernetes service",
          "Assistant: " ++ generateResponse "Create a Kubernetes service"] ∧
      ((m.Update Msg.keyExample2).1).textarea.value = "") ∧
    (((m.Update Msg.keyExample3).1).responses =
        m.responses ++ ["You: Set up ingress controller",
          "Assistant: " ++ generateResponse "Set up ingress controller"] ∧
      ((m.Update Msg.keyExample3).1).textarea.value = "") := by
  refine ⟨⟨?_, ?_⟩, ⟨?_, ?_⟩, ⟨?_, ?_⟩⟩ <;>
    simp [AssistantModel.Update, Textarea.update, Viewport.update,
      AssistantModel.handleQuery, Textarea.setValue]

/-- C1 (witness): the amended statement evaluated on a concrete ready
session with buffer contents `h`. -/
theorem quickaction_appends_pair_and_clears_input_witness :
    ((readyModelH.Update Msg.keyExample1).1).responses =
        readyModelH.responses ++ ["You: Create a deployment for my application",
          "Assistant: " ++ generateResponse "Create a deployment for my application"] ∧
      ((readyModelH.Update Msg.keyExample1).1).textarea.value = "" :=
  (quickaction_appends_pair_and_clears_input readyModelH rfl).1

/-- C2 (counterexample): the query `deploy a service` contains `service`,
but its response is the deployment template, which does not contain
`kind: Service`. -/
theorem service_query_kind_service_cex :
    strIncludes (toLowerStr "deploy a service") "service" = true ∧
      strIncludes (generateResponse "deploy a service") "kind: Service" = false := by
  exact ⟨rfl, rfl⟩

/-- C2 (amended): for every query whose lowercasing contains `service`
and does not contain `deploy` (the earlier deployment rule would
otherwise fire), the response contains `kind: Service`. -/
theorem service_query_without_deploy_kind_service (q : String)
    (hs : strIncludes (toLowerStr q) "service" = true)
    (hd : strIncludes (toLowerStr q) "deploy" = false) :
    strIncludes (generateResponse q) "kind: Service" = true := by
  have hdm : strIncludes (toLowerStr q) "deployment" = false := by
    cases hdm : strIncludes (toLowerStr q) "deployment"
    · rfl
    · rw [strIncludes_deployment_deploy _ hdm] at hd
      exact hd
  simp only [generateResponse, hdm, hd, hs, Bool.or_self, if_true, if_false,
    Bool.false_or, Bool.or_false]
  rfl

/-- C2 (witness): the amended statement evaluated at `make a service`. -/
theorem service_query_without_deploy_kind_service_witness :
    strIncludes (generateResponse "make a service") "kind: Service" = true :=
  service_query_without_deploy_kind_service "make a service" rfl rfl

/-- C3 (counterexample): a session made ready at 80x24 has viewport width
76; a later resize to 100x50 leaves the viewport width at 76 instead of
re-sizing it to 96. -/
theorem resize_while_ready_cex :
    readyModel80.ready = true ∧ readyModel80.viewport.width = 76 ∧
      ((readyModel80.Update (Msg.windowSize 100 50)).1).viewport.width ≠ 100 - 4 := by
  refine ⟨rfl, rfl, ?_⟩
  have hv : ((readyModel80.Update (Msg.windowSize 100 50)).1).viewport.width = 76 := rfl
  rw [hv]
  decide

/-- C3 (amended): a resize received while the session is ready records
the new terminal dimensions in the model but leaves the input buffer and
viewport (width, height and all other modelled fields) unchanged, and the
session stays ready. -/
theorem resize_while_ready_records_dims_only (m : AssistantModel) (w h : Int)
    (hr : m.ready = true) :
    ((m.Update (Msg.windowSize w h)).1).width = w ∧
      ((m.Update (Msg.windowSize w h)).1).height = h ∧
      ((m.Update (Msg.windowSize w h)).1).viewport = m.viewport ∧
      ((m.Update (Msg.windowSize w h)).1).textarea = m.textarea ∧
      ((m.Update (Msg.windowSize w h)).1).ready = true ∧
      ((m.Update (Msg.windowSize w h)).1).responses = m.responses := by
  refine ⟨?_, ?_, ?_, ?_, ?_, ?_⟩ <;>
    simp [AssistantModel.Update, Textarea.update, Viewport.update, hr]

/-- C3 (witness): the amended statement evaluated on the concrete ready
session resized to 100x50. -/
theorem resize_while_ready_records_dims_only_witness :
    ((readyModel80.Update (Msg.windowSize 100 50)).1).width = 100 ∧
      ((readyModel80.Update (Msg.windowSize 100 50)).1).height = 50 ∧
      ((readyModel80.Update (Msg.windowSize 100 50)).1).viewport = readyModel80.viewport ∧
      ((readyModel80.Update (Msg.windowSize 100 50)).1).textarea = readyModel80.textarea ∧
      ((readyModel80.Update (Msg.windowSize 100 50)).1).ready = true ∧
      ((readyModel80.Update (Msg.windowSize 100 50)).1).responses = readyModel80.responses :=
  resize_while_ready_records_dims_only readyModel80 100 50 rfl

/-- C4 (counterexample): the query `DEPLOYXYZQ` matches the deployment
rule, yet the returned document does not contain the raw query — the
query is not interpolated into the template. -/
theorem query_interpolation_cex :
    strIncludes (toLowerStr "DEPLOYXYZQ") "deploy" = true ∧
      strIncludes (generateResponse "DEPLOYXYZQ") "DEPLOYXYZQ" = false := by
  exact ⟨rfl, rfl⟩

/-- C4 (amended): for every query matching some topic rule, the generator
returns the template of the first matching rule in rule order; the
template is a fixed string into which the query is not interpolated. -/
theorem first_matching_rule_fixed_template (q r : String)
    (h : specFirstMatch q = some r) : generateResponse q = r := by
  simp only [specFirstMatch, topicRules, List.find?, List.any, Bool.or_false] at h
  simp only [generateResponse]
  cases h1 : strIncludes (toLowerStr q) "deployment" <;>
    cases h2 : strIncludes (toLowerStr q) "deploy" <;>
    cases h3 : strIncludes (toLowerStr q) "service" <;>
    cases h4 : strIncludes (toLowerStr q) "ingress" <;>
    cases h5 : strIncludes (toLowerStr q) "pod" <;>
    cases h6 : strIncludes (toLowerStr q) "storage" <;>
    cases h7 : strIncludes (toLowerStr q) "volume" <;>
    cases h8 : strIncludes (toLowerStr q) "pv" <;>
    simp_all

/-- C4 (witness): the amended statement evaluated at `pod stuff`, whose
first matching rule is the pod rule. -/
theorem first_matching_rule_fixed_template_witness :
    generateResponse "pod stuff" = podResponse :=
  first_matching_rule_fixed_template "pod stuff" podResponse rfl

/-- C5: in every session state reachable from the initial state by any
event sequence the transcript has length at least one, and every clear
action replaces the transcript by exactly the single reset greeting turn
(so its length is exactly one and that welcome turn is present). -/
theorem transcript_invariant_and_clear (env : String) (msgs : List Msg) :
    1 ≤ (run (NewAssistantModel env) msgs).responses.length ∧
      ∀ m : AssistantModel,
        ((m.Update Msg.keyClear).1).responses = [clearedMessage] ∧
          ((m.Update Msg.keyClear).1).responses.length = 1 := by
  constructor
  · exact run_responses_ge msgs (NewAssistantModel env) (by simp [NewAssistantModel])
  · intro m
    constructor <;>
      simp [AssistantModel.Update, Textarea.update, Viewport.update]

/-- C6: starting from the initial session, performing any number of send
actions, each with the (non-empty) text the user has entered in the input
buffer, yields a transcript of length exactly 1 + 2N. -/
theorem consecutive_sends_transcript_length (env : String) (qs : List String)
    (h : ∀ q ∈ qs, q ≠ "") :
    (qs.foldl sendStep (NewAssistantModel env)).responses.length = 1 + 2 * qs.length := by
  rw [sends_fold qs (NewAssistantModel env) h]
  have hlen : (NewAssistantModel env).responses.length = 1 := rfl
  rw [hlen]

/-- C6 (witness): two sends with non-empty input yield a transcript of
length five. -/
theorem consecutive_sends_transcript_length_witness :
    ((["hi", "pods"] : List String).foldl sendStep (NewAssistantModel "local")).responses.length
      = 1 + 2 * (["hi", "pods"] : List String).length :=
  consecutive_sends_transcript_length "local" ["hi", "pods"] (by decide)

/-- C7: processing a send key event with an empty input buffer appends no
turn — the transcript and the viewport content are exactly what they were
before the event. -/
theorem empty_send_frame (m : AssistantModel) (h : m.textarea.value = "") :
    ((m.Update Msg.keySend).1).responses = m.responses ∧
      ((m.Update Msg.keySend).1).viewport.content = m.viewport.content := by
  constructor <;>
    simp [AssistantModel.Update, Textarea.update, Viewport.update, h]

/-- C7 (witness): the statement evaluated on the freshly created session,
whose buffer is empty. -/
theorem empty_send_frame_witness :
    (((NewAssistantModel "local").Update Msg.keySend).1).responses =
        (NewAssistantModel "local").responses ∧
      (((NewAssistantModel "local").Update Msg.keySend).1).viewport.content =
        (NewAssistantModel "local").viewport.content :=
  empty_send_frame (NewAssistantModel "local") rfl

/-- C8: for every query whose lowercasing contains `deployment` or
`deploy`, the response contains the `kubectl create deployment` command
and a `Prerequisites` section. -/
theorem deploy_query_response_sections (q : String)
    (h : strIncludes (toLowerStr q) "deployment" = true ∨
      strIncludes (toLowerStr q) "deploy" = true) :
    strIncludes (generateResponse q) "kubectl create deployment" = true ∧
      strIncludes (generateResponse q) "Prerequisites" = true := by
  have hb : (strIncludes (toLowerStr q) "deployment" ||
      strIncludes (toLowerStr q) "deploy") = true := by
    rcases h with h | h <;> simp [h]
  simp only [generateResponse, hb, if_true]
  exact ⟨rfl, rfl⟩

/-- C8 (witness): the statement evaluated at `Deploy my app`. -/
theorem deploy_query_response_sections_witness :
    strIncludes (generateResponse "Deploy my app") "kubectl create deployment" = true ∧
      strIncludes (generateResponse "Deploy my app") "Prerequisites" = true :=
  deploy_query_response_sections "Deploy my app" (Or.inr rfl)

/-- C9: for every query none of whose topic keywords occurs in its
lowercasing, the generator returns the one fixed fallback document; the
generator is a total pure function, so the result is defined for every
input and identical across repeated calls with the same input. -/
theorem unmatched_query_fallback (q : String)
    (h : topicKeywords.all (fun kw => !(strIncludes (toLowerStr q) kw)) = true) :
    generateResponse q = defaultResponse := by
  simp only [topicKeywords, List.all_cons, List.all_nil, Bool.and_eq_true,
    Bool.not_eq_true'] at h
  obtain ⟨h1, h2, h3, h4, h5, h6, h7, h8, -⟩ := h
  simp [generateResponse, h1, h2, h3, h4, h5, h6, h7, h8]

/-- C9 (witness): the statement evaluated at the empty query, which
matches no keyword and yields the fallback document. -/
theorem unmatched_query_fallback_witness :
    generateResponse "" = defaultResponse :=
  unmatched_query_fallback "" rfl

/-- C10: a send of the buffer contents `q`, and each QuickAction with its
bound query, store the user turn as exactly the string `You: ` ++ q and
the assistant turn as exactly `Assistant: ` ++ generateResponse q in the
flattened transcript — the speaker is encoded only as this text prefix. -/
theorem turn_text_prefix_encoding (m : AssistantModel) (q : String)
    (hv : m.textarea.value = q) (hq : q ≠ "") :
    ((m.Update Msg.keySend).1).responses =
        m.responses ++ ["You: " ++ q, "Assistant: " ++ generateResponse q] ∧
      ((m.Update Msg.keyExample1).1).responses =
        m.responses ++ ["You: Create a deployment for my application",
          "Assistant: " ++ generateResponse "Create a deployment for my application"] ∧
      ((m.Update Msg.keyExample2).1).responses =
        m.responses ++ ["You: Create a Kubernetes service",
          "Assistant: " ++ generateResponse "Create a Kubernetes service"] ∧
      ((m.Update Msg.keyExample3).1).responses =
        m.responses ++ ["You: Set up ingress controller",
          "Assistant: " ++ generateResponse "Set up ingress controller"] := by
  refine ⟨?_, ?_, ?_, ?_⟩ <;>
    simp [AssistantModel.Update, Textarea.update, Viewport.update,
      AssistantModel.handleQuery, hv, hq]

/-- C10 (witness): the statement evaluated on a concrete session whose
buffer holds `hi`. -/
theorem turn_text_prefix_encoding_witness :
    ((readyModelHi.Update Msg.keySend).1).responses =
        readyModelHi.responses ++ ["You: hi", "Assistant: " ++ generateResponse "hi"] :=
  (turn_text_prefix_encoding readyModelHi "hi" rfl (by decide)).1

end InnovationEngine
